import Mathlib

/-!
Verification of the video-vectorizer service (src/main.py, src/video_vectorizer.py):
a Flask front door with routes /health, /process-video, /search, and the
VideoVectorizer orchestrator that sequences calls to external services
(video analysis, text embedding, vector upsert, nearest-neighbor lookup).

The external services are modelled as oracles returning `Except String α`
(a raised Python exception is `Except.error msg` where `msg` is `str(e)`).
JSON values (request bodies, metadata dictionaries) are a `JsonVal` inductive;
Python dictionaries appearing in the code are `List (String × JsonVal)`.
Every call to an external service is recorded in a trace of `Event`s, so that
call order and "no downstream call is made" are provable statements.
Numeric values that the code merely passes through (confidences, time offsets,
embedding components, distances) are modelled as `Int`; the code performs no
arithmetic on them.
-/

/-- A JSON value, as produced by Flask's `request.get_json()`.
Python `None` is `null`; JSON objects are association lists. -/
inductive JsonVal where
  | null : JsonVal
  | bool (b : Bool) : JsonVal
  | num (n : Int) : JsonVal
  | str (s : String) : JsonVal
  | arr (xs : List JsonVal) : JsonVal
  | obj (fields : List (String × JsonVal)) : JsonVal

/-- Python truthiness (`bool(x)`) of a JSON value: `None`, `False`, `0`, `""`,
`[]` and an empty dict are falsy, everything else truthy. -/
def JsonVal.truthy : JsonVal → Bool
  | .null => false
  | .bool b => b
  | .num n => n != 0
  | .str s => s ≠ ""
  | .arr xs => !xs.isEmpty
  | .obj fs => !fs.isEmpty

/-- Lookup of a key in a Python dict built from JSON: with duplicate keys the
later binding wins, as in Python's `json` module. -/
def dictLookup (fs : List (String × JsonVal)) (k : String) : Option JsonVal :=
  fs.foldl (fun acc p => if p.1 == k then some p.2 else acc) none

/-- Python's `k in data` for a string `k`: key membership for dicts, element
membership for lists (a JSON element equals the string `k` only if it is that
string), substring test for strings; raises `TypeError` on non-iterables. -/
def JsonVal.containsKey : JsonVal → String → Except String Bool
  | .obj fs, k => .ok (fs.any (fun p => p.1 == k))
  | .arr xs, k => .ok (xs.any (fun v => match v with | .str s => s == k | _ => false))
  | .str s, k => .ok (decide (List.IsInfix k.toList s.toList))
  | .num _, _ => .error "argument of type 'int' is not iterable"
  | .bool _, _ => .error "argument of type 'bool' is not iterable"
  | .null, _ => .error "argument of type 'NoneType' is not iterable"

/-- Python's `data[k]` for a string key `k`: dict indexing (`KeyError` when the
key is absent, whose `str` is the quoted key); `TypeError` on other values. -/
def JsonVal.subscript : JsonVal → String → Except String JsonVal
  | .obj fs, k =>
      match dictLookup fs k with
      | some v => .ok v
      | none => .error ("'" ++ k ++ "'")
  | .arr _, _ => .error "list indices must be integers or slices, not str"
  | .str _, _ => .error "string indices must be integers"
  | .num _, _ => .error "'int' object is not subscriptable"
  | .bool _, _ => .error "'bool' object is not subscriptable"
  | .null, _ => .error "'NoneType' object is not subscriptable"

/-- Python's `data.get(k, default)`: only dicts have `.get`; on other values
attribute access raises. -/
def JsonVal.getD : JsonVal → String → JsonVal → Except String JsonVal
  | .obj fs, k, d => .ok ((dictLookup fs k).getD d)
  | .arr _, _, _ => .error "'list' object has no attribute 'get'"
  | .str _, _, _ => .error "'str' object has no attribute 'get'"
  | .num _, _, _ => .error "'int' object has no attribute 'get'"
  | .bool _, _, _ => .error "'bool' object has no attribute 'get'"
  | .null, _, _ => .error "'NoneType' object has no attribute 'get'"

/-! ## Video Intelligence response model (input of `_parse_video_analysis`) -/

/-- A time offset object; `total_seconds` models Python's
`duration.total_seconds()` (the numeric value is passed through unchanged). -/
structure TimeOffset where
  total_seconds : Int

/-- A frame of a shot label annotation; only `confidence` is read. -/
structure LabelFrame where
  confidence : Int

/-- The entity of a label annotation; only `description` is read. -/
structure LabelEntity where
  description : String

/-- One element of `shot_label_annotations`. -/
structure ShotLabelAnnotation where
  entity : LabelEntity
  frames : List LabelFrame

/-- One element of `shot_annotations`. -/
structure ShotAnnotation where
  start_time_offset : TimeOffset
  end_time_offset : TimeOffset

/-- One alternative of a speech transcription; only `transcript` is read. -/
structure SpeechAlternative where
  transcript : String

/-- One element of `speech_transcriptions`. -/
structure SpeechTranscription where
  alternatives : List SpeechAlternative

/-- One element of `annotation_results`. -/
structure AnnotationResult where
  shot_label_annotations : List ShotLabelAnnotation
  shot_annotations : List ShotAnnotation
  speech_transcriptions : List SpeechTranscription

/-- The response delivered by `operation.result(timeout=600)` in `analyze_video`. -/
structure AnnotateResponse where
  annotation_results : List AnnotationResult

/-! ## Parsed analysis result (the dict built by `_parse_video_analysis`) -/

/-- One entry of `video_data["labels"]`. -/
structure LabelInfo where
  description : String
  confidence : Int
deriving DecidableEq

/-- One entry of `video_data["scenes"]`. -/
structure SceneInfo where
  start_time : Int
  end_time : Int
deriving DecidableEq

/-- The dict returned by `_parse_video_analysis` (fixed shape:
keys `labels`, `scenes`, `transcript`). -/
structure VideoData where
  labels : List LabelInfo
  scenes : List SceneInfo
  transcript : String
deriving DecidableEq

/-- The labels loop of `_parse_video_analysis`: one entry per shot label
annotation, in order; `label.frames[0]` raises `IndexError` (Python message
`"list index out of range"`) when a label has no frame, discarding the dict
under construction. -/
def parseLabels : List ShotLabelAnnotation → Except String (List LabelInfo)
  | [] => .ok []
  | label :: ls =>
    match label.frames with
    | [] => .error "list index out of range"
    | f :: _ =>
      match parseLabels ls with
      | .error e => .error e
      | .ok rest =>
          .ok ({ description := label.entity.description,
                 confidence := f.confidence } :: rest)

/-- `VideoVectorizer._parse_video_analysis` (src/video_vectorizer.py:71-107).
`result.annotation_results[0]` raises `IndexError` when there is no annotation
result; the labels loop runs first, then scenes, then the transcript
concatenation. -/
def parse_video_analysis (result : AnnotateResponse) : Except String VideoData :=
  match result.annotation_results with
  | [] => .error "list index out of range"
  | ar :: _ =>
    match parseLabels ar.shot_label_annotations with
    | .error e => .error e
    | .ok labels =>
      .ok { labels := labels,
            scenes := ar.shot_annotations.map (fun shot =>
              { start_time := shot.start_time_offset.total_seconds,
                end_time := shot.end_time_offset.total_seconds }),
            transcript := ar.speech_transcriptions.foldl
              (fun acc t => t.alternatives.foldl
                (fun a alme => a ++ alme.transcript ++ " ") acc) "" }

/-! ## External services and the call trace -/

/-- One neighbor in a `find_neighbors` response; the fields `id`, `distance`
and `parameters` are read. -/
structure Neighbor where
  id : String
  distance : Int
  parameters : JsonVal

/-- A call made to an external service. Traces of these events record which
downstream calls happen and in which order. -/
inductive Event where
  | annotateCall (gcs_uri : String) : Event
  | getEmbeddingsCall (texts : List JsonVal) : Event
  | upsertCall (embeddings : List (List Int)) (ids : List JsonVal)
      (parameters : List (String × JsonVal)) : Event
  | findNeighborsCall (query_embeddings : List (List Int)) (num_neighbors : JsonVal) : Event

/-- The external (Google Cloud) services, as oracles. A raised exception is
`Except.error msg` with `msg` the Python `str` of the exception.
`annotate` is `annotate_video`'s `operation.result(...)`; `getEmbeddings` is
`TextEmbeddingModel.get_embeddings` (returning the `.values` of each embedding
object); `upsert` is `index.upsert_embeddings`; `findNeighbors` is
`index.find_neighbors` (one neighbor list per query embedding). -/
structure Services where
  annotate : String → Except String AnnotateResponse
  getEmbeddings : List JsonVal → Except String (List (List Int))
  upsert : List (List Int) → List JsonVal → List (String × JsonVal) → Except String Unit
  findNeighbors : List (List Int) → JsonVal → Except String (List (List Neighbor))

/-! ## VideoVectorizer methods -/

/-- `VideoVectorizer.analyze_video` (src/video_vectorizer.py:35-69): requests
annotation of the video at `gcs_uri` and parses the response. The pair's
second component is the trace of external calls made. -/
def analyze_video (sv : Services) (gcs_uri : String) :
    Except String VideoData × List Event :=
  match sv.annotate gcs_uri with
  | .error e => (.error e, [.annotateCall gcs_uri])
  | .ok resp => (parse_video_analysis resp, [.annotateCall gcs_uri])

/-- `VideoVectorizer.generate_embeddings` (src/video_vectorizer.py:109-119):
`model.get_embeddings([text])` then `embeddings[0].values`; an empty response
list raises `IndexError`. -/
def generate_embeddings (sv : Services) (text : JsonVal) :
    Except String (List Int) × List Event :=
  match sv.getEmbeddings [text] with
  | .error e => (.error e, [.getEmbeddingsCall [text]])
  | .ok [] => (.error "list index out of range", [.getEmbeddingsCall [text]])
  | .ok (e0 :: _) => (.ok e0, [.getEmbeddingsCall [text]])

/-- `VideoVectorizer.store_vectors` (src/video_vectorizer.py:121-130):
`index.upsert_embeddings(embeddings=[vector_data], ids=[metadata["video_id"]],
parameters=metadata)`. -/
def store_vectors (sv : Services) (vector_data : List Int)
    (metadata : List (String × JsonVal)) : Except String Unit × List Event :=
  match dictLookup metadata "video_id" with
  | none => (.error "'video_id'", [])
  | some vid =>
      (sv.upsert [vector_data] [vid] metadata,
       [.upsertCall [vector_data] [vid] metadata])

/-- `{"video_id": n.id, "score": n.distance, "metadata": n.parameters}` for one
neighbor, as built by the comprehension in `VideoVectorizer.search_videos`. -/
def neighborJson (n : Neighbor) : JsonVal :=
  .obj [("video_id", .str n.id), ("score", .num n.distance), ("metadata", n.parameters)]

/-- `VideoVectorizer.search_videos` (src/video_vectorizer.py:132-154):
`index.find_neighbors(query_embeddings=[query_embedding], num_neighbors=limit)`
then the comprehension over `results[0]` (raising `IndexError` when the
response has no element). -/
def vv_search_videos (sv : Services) (query_embedding : List Int) (limit : JsonVal) :
    Except String (List JsonVal) × List Event :=
  match sv.findNeighbors [query_embedding] limit with
  | .error e => (.error e, [.findNeighborsCall [query_embedding] limit])
  | .ok [] => (.error "list index out of range", [.findNeighborsCall [query_embedding] limit])
  | .ok (r0 :: _) => (.ok (r0.map neighborJson), [.findNeighborsCall [query_embedding] limit])

/-! ## process_video (the orchestration flow) -/

/-- The search text of step 2 of `process_video`
(`f"{' '.join([label['description'] for label in video_data['labels']])} {video_data['transcript']}"`). -/
def searchText (vd : VideoData) : String :=
  String.intercalate " " (vd.labels.map (fun l => l.description)) ++ " " ++ vd.transcript

/-- The metadata dict assembled in step 4 of `process_video`; label and scene
dicts are the JSON objects they serialize to. -/
def mkMetadata (video_id : JsonVal) (gcs_uri : String) (vd : VideoData) :
    List (String × JsonVal) :=
  [("video_id", video_id),
   ("gcs_uri", .str gcs_uri),
   ("labels", .arr (vd.labels.map (fun l =>
      .obj [("description", .str l.description), ("confidence", .num l.confidence)]))),
   ("scenes", .arr (vd.scenes.map (fun s =>
      .obj [("start_time", .num s.start_time), ("end_time", .num s.end_time)]))),
   ("transcript", .str vd.transcript)]

/-- The record returned by `process_video`'s `except` clause. -/
def errorRecord (video_id : JsonVal) (e : String) : List (String × JsonVal) :=
  [("status", .str "error"), ("video_id", video_id), ("error", .str e)]

/-- The record returned on `process_video`'s success path. -/
def successRecord (video_id : JsonVal) (metadata : List (String × JsonVal)) :
    List (String × JsonVal) :=
  [("status", .str "success"), ("video_id", video_id), ("metadata", .obj metadata)]

/-- `VideoVectorizer.process_video` (src/video_vectorizer.py:156-191): analyze,
build search text, embed, assemble metadata, upsert; any exception among the
steps is caught and turned into the error record. The second component is the
trace of external calls made. -/
def vv_process_video (sv : Services) (gcs_uri : String) (video_id : JsonVal) :
    List (String × JsonVal) × List Event :=
  let (vdE, tr1) := analyze_video sv gcs_uri
  match vdE with
  | .error e => (errorRecord video_id e, tr1)
  | .ok vd =>
    let search_text := searchText vd
    let (embE, tr2) := generate_embeddings sv (.str search_text)
    match embE with
    | .error e => (errorRecord video_id e, tr1 ++ tr2)
    | .ok embeddings =>
      let metadata := mkMetadata video_id gcs_uri vd
      let (upE, tr3) := store_vectors sv embeddings metadata
      match upE with
      | .error e => (errorRecord video_id e, tr1 ++ tr2 ++ tr3)
      | .ok _ => (successRecord video_id metadata, tr1 ++ tr2 ++ tr3)

/-! ## Python string formatting helpers -/

/-- The Python type name of a JSON value. -/
def pyTypeName : JsonVal → String
  | .null => "NoneType"
  | .bool _ => "bool"
  | .num _ => "int"
  | .str _ => "str"
  | .arr _ => "list"
  | .obj _ => "dict"

mutual
/-- Python `repr` of a JSON value (string escaping abbreviated to plain
quoting; only scalar cases are reached in the flows below). -/
def pyRepr : JsonVal → String
  | .null => "None"
  | .bool true => "True"
  | .bool false => "False"
  | .num n => toString n
  | .str s => "'" ++ s ++ "'"
  | .arr xs => "[" ++ pyReprSeq xs ++ "]"
  | .obj fs => "\x7b" ++ pyReprFields fs ++ "\x7d"

/-- `repr` of list elements joined by `", "`. -/
def pyReprSeq : List JsonVal → String
  | [] => ""
  | [x] => pyRepr x
  | x :: xs => pyRepr x ++ ", " ++ pyReprSeq xs

/-- `repr` of dict entries joined by `", "`. -/
def pyReprFields : List (String × JsonVal) → String
  | [] => ""
  | [(k, v)] => "'" ++ k ++ "': " ++ pyRepr v
  | (k, v) :: fs => "'" ++ k ++ "': " ++ pyRepr v ++ ", " ++ pyReprFields fs
end

/-- Python `str(x)`, as applied by an f-string interpolation. -/
def pyStr : JsonVal → String
  | .str s => s
  | v => pyRepr v

/-- Python `d.get(k)` on a dict: the value, or `None` when the key is absent. -/
def dictGet (fs : List (String × JsonVal)) (k : String) : JsonVal :=
  (dictLookup fs k).getD .null

/-- Python `v == s` for a string literal `s`: true only for the equal string. -/
def pyEqStr (v : JsonVal) (s : String) : Bool :=
  match v with
  | .str t => t == s
  | _ => false

/-- Python's `s.startswith(p)`: `p` is a prefix of `s` (character-wise). -/
def pyStartsWith (s p : String) : Bool :=
  p.data.isPrefixOf s.data

/-! ## HTTP front door (src/main.py) -/

/-- `create_error_response` (src/main.py:19-25). -/
def create_error_response (message : String) (status_code : Nat) : Nat × JsonVal :=
  (status_code, .obj [("error", .str message)])

/-- A request as the handlers observe it: `request.is_json` and the parsed
body `request.get_json()` (`null` models Python `None`). -/
structure HttpRequest where
  is_json : Bool
  body : JsonVal

/-- `health_check` (src/main.py:28-33). It takes the services only so that
independence from them is a statable property; no call is made. -/
def health_check (_sv : Services) : (Nat × JsonVal) × List Event :=
  ((200, .obj [("status", .str "healthy")]), [])

/-- Attaches an empty trace to an exception raised before any external call. -/
def liftExc {α : Type} (x : Except String α) : Except (String × List Event) α :=
  x.mapError (fun e => (e, []))

/-- The `try` block of the `/process-video` handler (src/main.py:47-78).
`Except.error (e, tr)` is an exception with message `e` escaping the block
after the external calls in `tr` were made. -/
def process_video_body (sv : Services) (req : HttpRequest) :
    Except (String × List Event) ((Nat × JsonVal) × List Event) := do
  if !req.is_json then
    return (create_error_response "Content-Type must be application/json" 400, [])
  let data := req.body
  let missing ←
    if !data.truthy then pure true
    else do
      let hasG ← liftExc (data.containsKey "gcsUri")
      if !hasG then pure true
      else do
        let hasV ← liftExc (data.containsKey "videoId")
        pure !hasV
  if missing then
    return (create_error_response
      "Missing required parameters. 'gcsUri' and 'videoId' are required." 400, [])
  let gcs_uri ← liftExc (data.subscript "gcsUri")
  let video_id ← liftExc (data.subscript "videoId")
  let gstr ← match gcs_uri with
    | .str s => pure s
    | v => .error ("'" ++ pyTypeName v ++ "' object has no attribute 'startswith'", [])
  if !pyStartsWith gstr "gs://" then
    return (create_error_response "Invalid gcsUri format. Must start with 'gs://'" 400, [])
  let (result, tr) := vv_process_video sv gstr video_id
  if pyEqStr (dictGet result "status") "error" then
    return (create_error_response
      ("Error processing video: " ++ pyStr (dictGet result "error")) 500, tr)
  return ((200, .obj result), tr)

/-- The `/process-video` handler (src/main.py:36-81), including the
`except Exception` catch-all. -/
def process_video_route (sv : Services) (req : HttpRequest) :
    (Nat × JsonVal) × List Event :=
  match process_video_body sv req with
  | .ok r => r
  | .error (e, tr) => (create_error_response ("Unexpected error: " ++ e) 500, tr)

/-- The `try` block of the `/search` handler (src/main.py:95-113). -/
def search_videos_body (sv : Services) (req : HttpRequest) :
    Except (String × List Event) ((Nat × JsonVal) × List Event) := do
  if !req.is_json then
    return (create_error_response "Content-Type must be application/json" 400, [])
  let data := req.body
  let missing ←
    if !data.truthy then pure true
    else do
      let hasQ ← liftExc (data.containsKey "query")
      pure !hasQ
  if missing then
    return (create_error_response "Missing required parameter: 'query'" 400, [])
  let query ← liftExc (data.subscript "query")
  let limit ← liftExc (data.getD "limit" (.num 5))
  let (embE, tr1) := generate_embeddings sv query
  let query_embedding ← match embE with
    | .error e => .error (e, tr1)
    | .ok x => pure x
  let (resE, tr2) := vv_search_videos sv query_embedding limit
  let results ← match resE with
    | .error e => .error (e, tr1 ++ tr2)
    | .ok x => pure x
  return ((200, .obj [("status", .str "success"), ("query", query),
                      ("results", .arr results)]), tr1 ++ tr2)

/-- The `/search` handler (src/main.py:84-116), including the
`except Exception` catch-all. -/
def search_videos_route (sv : Services) (req : HttpRequest) :
    (Nat × JsonVal) × List Event :=
  match search_videos_body sv req with
  | .ok r => r
  | .error (e, tr) => (create_error_response ("Unexpected error: " ++ e) 500, tr)

/-! ## Helper lemmas about dict lookup -/

/-- The last-wins fold finds a key exactly when some entry bears it. -/
theorem dictLookup_foldl_isSome (fs : List (String × JsonVal)) (k : String)
    (acc : Option JsonVal) :
    (fs.foldl (fun acc p => if p.1 == k then some p.2 else acc) acc).isSome
      = (fs.any (fun p => p.1 == k) || acc.isSome) := by
  induction fs generalizing acc with
  | nil => simp
  | cons p fs ih =>
    simp only [List.foldl_cons, List.any_cons]
    cases h : p.1 == k
    · rw [ih]; simp [h]
    · rw [ih]; simp [h]

/-- A successful lookup means the key occurs among the entries. -/
theorem any_of_dictLookup {fs : List (String × JsonVal)} {k : String} {v : JsonVal}
    (h : dictLookup fs k = some v) : fs.any (fun p => p.1 == k) = true := by
  have h2 := dictLookup_foldl_isSome fs k none
  rw [dictLookup] at h
  rw [h] at h2
  simpa using h2.symm

/-- A failed lookup means the key occurs in no entry. -/
theorem none_any_dictLookup {fs : List (String × JsonVal)} {k : String}
    (h : dictLookup fs k = none) : fs.any (fun p => p.1 == k) = false := by
  have h2 := dictLookup_foldl_isSome fs k none
  rw [dictLookup] at h
  rw [h] at h2
  simpa using h2.symm

/-- A dict with a found key is nonempty. -/
theorem isEmpty_false_of_dictLookup {fs : List (String × JsonVal)} {k : String} {v : JsonVal}
    (h : dictLookup fs k = some v) : fs.isEmpty = false := by
  cases fs with
  | nil => simp [dictLookup] at h
  | cons p fs => rfl

/-! ## Spec-side description of the transcript (for the refinement claim C6) -/

/-- Modelled from the spec wording: each alternative's transcript followed by
a single space, concatenated. -/
def altsSpec : List SpeechAlternative → String
  | [] => ""
  | a :: as => a.transcript ++ " " ++ altsSpec as

/-- Modelled from the spec wording: the concatenation, over all speech
transcriptions, of their alternatives' contributions (empty when none). -/
def transcriptSpec : List SpeechTranscription → String
  | [] => ""
  | t :: ts => altsSpec t.alternatives ++ transcriptSpec ts

/-- The inner transcript fold of `_parse_video_analysis` accumulates exactly
the spec-side concatenation of one transcription's alternatives. -/
theorem alts_foldl (as : List SpeechAlternative) (acc : String) :
    as.foldl (fun a alme => a ++ alme.transcript ++ " ") acc = acc ++ altsSpec as := by
  induction as generalizing acc with
  | nil => simp [altsSpec]
  | cons a as ih =>
    rw [List.foldl_cons, ih]
    simp [altsSpec, String.append_assoc]

/-- The outer transcript fold of `_parse_video_analysis` accumulates exactly
the spec-side concatenation over all speech transcriptions. -/
theorem transcript_foldl (ts : List SpeechTranscription) (acc : String) :
    ts.foldl (fun acc t =>
      t.alternatives.foldl (fun a alme => a ++ alme.transcript ++ " ") acc) acc
      = acc ++ transcriptSpec ts := by
  induction ts generalizing acc with
  | nil => simp [transcriptSpec]
  | cons t ts ih =>
    rw [List.foldl_cons, ih, alts_foldl]
    simp [transcriptSpec, String.append_assoc]

/-- When every shot label annotation has a frame, the labels loop succeeds and
produces, in order, one entry per annotation with its entity description and
its first frame's confidence. -/
theorem parseLabels_ok (ls : List ShotLabelAnnotation)
    (h : ∀ l ∈ ls, l.frames ≠ []) :
    ∃ labs, parseLabels ls = .ok labs ∧
      List.Forall₂ (fun (l : ShotLabelAnnotation) (lab : LabelInfo) =>
        lab.description = l.entity.description ∧
        ∃ fr frs, l.frames = fr :: frs ∧ lab.confidence = fr.confidence) ls labs := by
  induction ls with
  | nil => exact ⟨[], rfl, .nil⟩
  | cons l ls ih =>
    obtain ⟨fr, frs, hfr⟩ : ∃ fr frs, l.frames = fr :: frs := by
      cases hh : l.frames with
      | nil => exact absurd hh (h l (by simp))
      | cons fr frs => exact ⟨fr, frs, rfl⟩
    obtain ⟨labs, hm, hf⟩ := ih (fun x hx => h x (by simp [hx]))
    refine ⟨⟨l.entity.description, fr.confidence⟩ :: labs, ?_, ?_⟩
    · simp [parseLabels, hfr, hm]
    · exact .cons ⟨rfl, fr, frs, hfr, rfl⟩ hf

/-- `process_video` always produces either the error record or the success
record for the given `video_id` (the `try`/`except` catches everything). -/
theorem vv_process_video_shape (sv : Services) (gcs : String) (vid : JsonVal) :
    (∃ e, (vv_process_video sv gcs vid).1 = errorRecord vid e) ∨
    (∃ md, (vv_process_video sv gcs vid).1 = successRecord vid md) := by
  unfold vv_process_video
  rcases hA : analyze_video sv gcs with ⟨vdE, tr1⟩
  cases vdE with
  | error e => exact .inl ⟨e, by simp⟩
  | ok vd =>
    rcases hE : generate_embeddings sv (.str (searchText vd)) with ⟨embE, tr2⟩
    cases embE with
    | error e => exact .inl ⟨e, by simp [hE]⟩
    | ok emb =>
      rcases hU : store_vectors sv emb (mkMetadata vid gcs vd) with ⟨upE, tr3⟩
      cases upE with
      | error e => exact .inl ⟨e, by simp [hE, hU]⟩
      | ok u => exact .inr ⟨mkMetadata vid gcs vd, by simp [hE, hU]⟩

/-! ## Concrete fixtures used by the witnesses -/

/-- A sample annotation response: one label with one frame, one shot, one
speech transcription with one alternative. -/
def respT : AnnotateResponse :=
  ⟨[⟨[⟨⟨"cat"⟩, [⟨9⟩]⟩], [⟨⟨1⟩, ⟨2⟩⟩], [⟨[⟨"hello"⟩]⟩]⟩]⟩

/-- The parse of `respT`. -/
def vdT : VideoData := ⟨[⟨"cat", 9⟩], [⟨1, 2⟩], "hello "⟩

/-- A sample neighbor. -/
def nbT : Neighbor := ⟨"v1", 7, .null⟩

/-- Services on which every call succeeds with fixed data. -/
def svOk : Services :=
  ⟨fun _ => .ok respT, fun _ => .ok [[1, 2, 3]],
   fun _ _ _ => .ok (), fun _ _ => .ok [[nbT]]⟩

/-- Services on which every call raises. -/
def svErr : Services :=
  ⟨fun _ => .error "analysis failed", fun _ => .error "embedding failed",
   fun _ _ _ => .error "upsert failed", fun _ _ => .error "search failed"⟩

/-- A well-formed /process-video request body. -/
def fsPV : List (String × JsonVal) :=
  [("gcsUri", .str "gs://bucket/v.mp4"), ("videoId", .str "vid-1")]

/-! ## Claim theorems -/

/-- C1: for a POST /process-video request whose JSON body holds a string
`gcsUri` starting with `gs://` and a `videoId`, when the external video
analysis raises, `process_video` returns the `status: "error"` record and the
endpoint responds HTTP 500 with body
`{"error": "Error processing video: " ++ the record's error message}`. -/
theorem process_video_analysis_error_500 (sv : Services)
    (fs : List (String × JsonVal)) (g : String) (vid : JsonVal) (m : String)
    (hg : dictLookup fs "gcsUri" = some (.str g))
    (hv : dictLookup fs "videoId" = some vid)
    (hp : pyStartsWith g "gs://" = true)
    (ha : sv.annotate g = .error m) :
    (vv_process_video sv g vid).1 = errorRecord vid m ∧
    process_video_route sv ⟨true, .obj fs⟩ =
      ((500, .obj [("error", .str ("Error processing video: " ++ m))]),
       [.annotateCall g]) := by
  have hvv : vv_process_video sv g vid = (errorRecord vid m, [.annotateCall g]) := by
    simp [vv_process_video, analyze_video, ha]
  refine ⟨by rw [hvv], ?_⟩
  simp only [process_video_route, process_video_body, JsonVal.truthy,
    isEmpty_false_of_dictLookup hg, JsonVal.containsKey,
    any_of_dictLookup hg, any_of_dictLookup hv, JsonVal.subscript, hg, hv, hp, hvv,
    liftExc, Except.mapError, bind, Except.bind, pure, Except.pure,
    create_error_response, Bool.not_false, Bool.not_true, if_true, if_false]
  simp [pyEqStr, dictGet, dictLookup, errorRecord, pyStr, pyRepr, hp]

/-- Witness for C1 at a concrete request and failing analysis service. -/
theorem process_video_analysis_error_500_witness :
    (vv_process_video svErr "gs://bucket/v.mp4" (.str "vid-1")).1
      = errorRecord (.str "vid-1") "analysis failed" ∧
    process_video_route svErr ⟨true, .obj fsPV⟩ =
      ((500, .obj [("error", .str ("Error processing video: " ++ "analysis failed"))]),
       [.annotateCall "gs://bucket/v.mp4"]) :=
  process_video_analysis_error_500 svErr fsPV "gs://bucket/v.mp4" (.str "vid-1")
    "analysis failed" rfl rfl rfl rfl

/-- C2: when no step of `process_video` raises, the external calls happen in
the order analysis, embedding (of the search string built from the label
descriptions joined by spaces, a space, and the transcript), upsert (of the
metadata `{video_id, gcs_uri, labels, scenes, transcript}`); the returned
record is `{"status": "success", "video_id", "metadata"}` and the endpoint
returns it with HTTP 200 as the JSON response body. -/
theorem process_video_happy_path (sv : Services) (fs : List (String × JsonVal))
    (g : String) (vid : JsonVal) (resp : AnnotateResponse) (vd : VideoData)
    (emb : List Int) (embs : List (List Int))
    (hg : dictLookup fs "gcsUri" = some (.str g))
    (hv : dictLookup fs "videoId" = some vid)
    (hp : pyStartsWith g "gs://" = true)
    (ha : sv.annotate g = .ok resp)
    (hparse : parse_video_analysis resp = .ok vd)
    (he : sv.getEmbeddings [.str (searchText vd)] = .ok (emb :: embs))
    (hu : sv.upsert [emb] [vid] (mkMetadata vid g vd) = .ok ()) :
    vv_process_video sv g vid =
      (successRecord vid (mkMetadata vid g vd),
       [.annotateCall g, .getEmbeddingsCall [.str (searchText vd)],
        .upsertCall [emb] [vid] (mkMetadata vid g vd)]) ∧
    searchText vd
      = String.intercalate " " (vd.labels.map (fun l => l.description))
          ++ " " ++ vd.transcript ∧
    process_video_route sv ⟨true, .obj fs⟩ =
      ((200, .obj (successRecord vid (mkMetadata vid g vd))),
       [.annotateCall g, .getEmbeddingsCall [.str (searchText vd)],
        .upsertCall [emb] [vid] (mkMetadata vid g vd)]) := by
  have hmk : dictLookup (mkMetadata vid g vd) "video_id" = some vid := rfl
  have hvv : vv_process_video sv g vid =
      (successRecord vid (mkMetadata vid g vd),
       [.annotateCall g, .getEmbeddingsCall [.str (searchText vd)],
        .upsertCall [emb] [vid] (mkMetadata vid g vd)]) := by
    simp [vv_process_video, analyze_video, ha, hparse, generate_embeddings, he,
      store_vectors, hmk, hu]
  refine ⟨hvv, rfl, ?_⟩
  simp only [process_video_route, process_video_body, JsonVal.truthy,
    isEmpty_false_of_dictLookup hg, JsonVal.containsKey,
    any_of_dictLookup hg, any_of_dictLookup hv, JsonVal.subscript, hg, hv, hp, hvv,
    liftExc, Except.mapError, bind, Except.bind, pure, Except.pure,
    create_error_response, Bool.not_false, Bool.not_true, if_true, if_false]
  simp [pyEqStr, dictGet, dictLookup, successRecord, hp]

/-- Witness for C2 at a concrete request and all-successful services. -/
theorem process_video_happy_path_witness :
    vv_process_video svOk "gs://bucket/v.mp4" (.str "vid-1") =
      (successRecord (.str "vid-1") (mkMetadata (.str "vid-1") "gs://bucket/v.mp4" vdT),
       [.annotateCall "gs://bucket/v.mp4", .getEmbeddingsCall [.str (searchText vdT)],
        .upsertCall [[1, 2, 3]] [.str "vid-1"]
          (mkMetadata (.str "vid-1") "gs://bucket/v.mp4" vdT)]) ∧
    searchText vdT
      = String.intercalate " " (vdT.labels.map (fun l => l.description))
          ++ " " ++ vdT.transcript ∧
    process_video_route svOk ⟨true, .obj fsPV⟩ =
      ((200, .obj (successRecord (.str "vid-1")
                    (mkMetadata (.str "vid-1") "gs://bucket/v.mp4" vdT))),
       [.annotateCall "gs://bucket/v.mp4", .getEmbeddingsCall [.str (searchText vdT)],
        .upsertCall [[1, 2, 3]] [.str "vid-1"]
          (mkMetadata (.str "vid-1") "gs://bucket/v.mp4" vdT)]) :=
  process_video_happy_path svOk fsPV "gs://bucket/v.mp4" (.str "vid-1") respT vdT
    [1, 2, 3] [] rfl rfl rfl rfl rfl rfl rfl

/-- C3: a JSON-typed POST whose parsed body is empty (falsy) or is an object
lacking `gcsUri` or `videoId` gets 400 with the missing-parameters message
from /process-video; one whose body is empty or an object lacking `query`
gets 400 with the missing-query message from /search. -/
theorem missing_required_params_400 (sv : Services) (d1 d2 : JsonVal)
    (h1 : d1.truthy = false ∨ ∃ fs, d1 = .obj fs ∧
      (dictLookup fs "gcsUri" = none ∨ dictLookup fs "videoId" = none))
    (h2 : d2.truthy = false ∨ ∃ fs, d2 = .obj fs ∧ dictLookup fs "query" = none) :
    process_video_route sv ⟨true, d1⟩ =
      ((400, .obj [("error",
        .str "Missing required parameters. 'gcsUri' and 'videoId' are required.")]), []) ∧
    search_videos_route sv ⟨true, d2⟩ =
      ((400, .obj [("error", .str "Missing required parameter: 'query'")]), []) := by
  constructor
  · rcases h1 with ht | ⟨fs, rfl, hk⟩
    · simp [process_video_route, process_video_body, ht, liftExc, Except.mapError,
        bind, Except.bind, pure, Except.pure, create_error_response]
    · cases htr : (JsonVal.obj fs).truthy
      · simp [process_video_route, process_video_body, htr, liftExc, Except.mapError,
          bind, Except.bind, pure, Except.pure, create_error_response]
      · rcases hk with hk | hk
        · simp [process_video_route, process_video_body, htr, JsonVal.containsKey,
            none_any_dictLookup hk, liftExc, Except.mapError,
            bind, Except.bind, pure, Except.pure, create_error_response]
        · cases hG : fs.any (fun p => p.1 == "gcsUri")
          · simp [process_video_route, process_video_body, htr, JsonVal.containsKey,
              hG, liftExc, Except.mapError,
              bind, Except.bind, pure, Except.pure, create_error_response]
          · simp [process_video_route, process_video_body, htr, JsonVal.containsKey,
              hG, none_any_dictLookup hk, liftExc, Except.mapError,
              bind, Except.bind, pure, Except.pure, create_error_response]
  · rcases h2 with ht | ⟨fs, rfl, hk⟩
    · simp [search_videos_route, search_videos_body, ht, liftExc, Except.mapError,
        bind, Except.bind, pure, Except.pure, create_error_response]
    · cases htr : (JsonVal.obj fs).truthy
      · simp [search_videos_route, search_videos_body, htr, liftExc, Except.mapError,
          bind, Except.bind, pure, Except.pure, create_error_response]
      · simp [search_videos_route, search_videos_body, htr, JsonVal.containsKey,
          none_any_dictLookup hk, liftExc, Except.mapError,
          bind, Except.bind, pure, Except.pure, create_error_response]

/-- Witness for C3: an object lacking `gcsUri`, and an empty (null) body. -/
theorem missing_required_params_400_witness :
    process_video_route svErr ⟨true, .obj [("videoId", .str "v")]⟩ =
      ((400, .obj [("error",
        .str "Missing required parameters. 'gcsUri' and 'videoId' are required.")]), []) ∧
    search_videos_route svErr ⟨true, .null⟩ =
      ((400, .obj [("error", .str "Missing required parameter: 'query'")]), []) :=
  missing_required_params_400 svErr (.obj [("videoId", .str "v")]) .null
    (.inr ⟨[("videoId", .str "v")], rfl, .inl rfl⟩) (.inl rfl)

/-- C4: a /search request whose object body has `query` gets the
nearest-neighbor lookup invoked with the default limit 5 when `limit` is
omitted, and, when no downstream call raises, the response is
`{"status": "success", "query", "results"}` with the list returned by the
lookup. -/
theorem search_default_limit_and_response (sv : Services)
    (fs : List (String × JsonVal)) (q lim : JsonVal) (emb : List Int)
    (embs : List (List Int)) (r0 : List Neighbor) (rest : List (List Neighbor))
    (hq : dictLookup fs "query" = some q)
    (hlim : (dictLookup fs "limit").getD (.num 5) = lim)
    (he : sv.getEmbeddings [q] = .ok (emb :: embs))
    (hn : sv.findNeighbors [emb] lim = .ok (r0 :: rest)) :
    search_videos_route sv ⟨true, .obj fs⟩ =
      ((200, .obj [("status", .str "success"), ("query", q),
                   ("results", .arr (r0.map neighborJson))]),
       [.getEmbeddingsCall [q], .findNeighborsCall [emb] lim]) ∧
    (dictLookup fs "limit" = none → lim = .num 5) := by
  constructor
  · have hge : generate_embeddings sv q = (.ok emb, [.getEmbeddingsCall [q]]) := by
      simp [generate_embeddings, he]
    have hsv : vv_search_videos sv emb lim =
        (.ok (r0.map neighborJson), [.findNeighborsCall [emb] lim]) := by
      simp [vv_search_videos, hn]
    simp only [search_videos_route, search_videos_body, JsonVal.truthy,
      isEmpty_false_of_dictLookup hq, JsonVal.containsKey, any_of_dictLookup hq,
      JsonVal.subscript, JsonVal.getD, hq, hlim, hge, hsv,
      liftExc, Except.mapError, bind, Except.bind, pure, Except.pure,
      create_error_response, Bool.not_false, Bool.not_true, if_true, if_false]
    simp
  · intro h
    rw [h] at hlim
    simpa using hlim.symm

/-- Witness for C4: body `{"query": "cats"}` with no `limit`. -/
theorem search_default_limit_and_response_witness :
    search_videos_route svOk ⟨true, .obj [("query", .str "cats")]⟩ =
      ((200, .obj [("status", .str "success"), ("query", .str "cats"),
                   ("results", .arr ([nbT].map neighborJson))]),
       [.getEmbeddingsCall [.str "cats"], .findNeighborsCall [[1, 2, 3]] (.num 5)]) ∧
    (dictLookup [("query", .str "cats")] "limit" = none → JsonVal.num 5 = .num 5) :=
  search_default_limit_and_response svOk [("query", .str "cats")] (.str "cats")
    (.num 5) [1, 2, 3] [] [nbT] [] rfl rfl rfl rfl

/-- C5: a /process-video request whose object body holds both keys but whose
`gcsUri` is a string not starting with `gs://` gets HTTP 400 with the
invalid-format message, and the empty trace shows no downstream call is
made. -/
theorem invalid_gcs_uri_400_no_calls (sv : Services)
    (fs : List (String × JsonVal)) (g : String) (vid : JsonVal)
    (hg : dictLookup fs "gcsUri" = some (.str g))
    (hv : dictLookup fs "videoId" = some vid)
    (hp : pyStartsWith g "gs://" = false) :
    process_video_route sv ⟨true, .obj fs⟩ =
      ((400, .obj [("error", .str "Invalid gcsUri format. Must start with 'gs://'")]),
       []) := by
  simp only [process_video_route, process_video_body, JsonVal.truthy,
    isEmpty_false_of_dictLookup hg, JsonVal.containsKey,
    any_of_dictLookup hg, any_of_dictLookup hv, JsonVal.subscript, hg, hv, hp,
    liftExc, Except.mapError, bind, Except.bind, pure, Except.pure,
    create_error_response, Bool.not_false, Bool.not_true, if_true, if_false]
  simp

/-- Witness for C5 at a concrete http:// URI. -/
theorem invalid_gcs_uri_400_no_calls_witness :
    process_video_route svOk
      ⟨true, .obj [("gcsUri", .str "http://x"), ("videoId", .str "v")]⟩ =
      ((400, .obj [("error", .str "Invalid gcsUri format. Must start with 'gs://'")]),
       []) :=
  invalid_gcs_uri_400_no_calls svOk [("gcsUri", .str "http://x"), ("videoId", .str "v")]
    "http://x" (.str "v") rfl rfl rfl

/-- C6: with at least one annotation result and a frame on every shot label
annotation, `_parse_video_analysis` succeeds with a record of exactly the
fields labels (entity description plus first frame's confidence, in order),
scenes (start/end offsets in seconds of each shot annotation), and transcript
(the spec-side concatenation of each alternative's transcript plus a space). -/
theorem parse_video_analysis_fields (ar : AnnotationResult)
    (rest : List AnnotationResult)
    (h : ∀ l ∈ ar.shot_label_annotations, l.frames ≠ []) :
    ∃ vd, parse_video_analysis ⟨ar :: rest⟩ = .ok vd ∧
      List.Forall₂ (fun (l : ShotLabelAnnotation) (lab : LabelInfo) =>
        lab.description = l.entity.description ∧
        ∃ fr frs, l.frames = fr :: frs ∧ lab.confidence = fr.confidence)
        ar.shot_label_annotations vd.labels ∧
      vd.scenes = ar.shot_annotations.map (fun shot =>
        { start_time := shot.start_time_offset.total_seconds,
          end_time := shot.end_time_offset.total_seconds }) ∧
      vd.transcript = transcriptSpec ar.speech_transcriptions := by
  obtain ⟨labs, hm, hf⟩ := parseLabels_ok ar.shot_label_annotations h
  refine ⟨⟨labs,
    ar.shot_annotations.map (fun shot =>
      { start_time := shot.start_time_offset.total_seconds,
        end_time := shot.end_time_offset.total_seconds }),
    transcriptSpec ar.speech_transcriptions⟩, ?_, hf, rfl, rfl⟩
  simp [parse_video_analysis, hm, transcript_foldl]

/-- Witness for C6 at a concrete annotation result. -/
theorem parse_video_analysis_fields_witness :
    ∃ vd, parse_video_analysis
        ⟨[⟨[⟨⟨"cat"⟩, [⟨9⟩]⟩], [⟨⟨1⟩, ⟨2⟩⟩], [⟨[⟨"hello"⟩]⟩]⟩]⟩ = .ok vd ∧
      List.Forall₂ (fun (l : ShotLabelAnnotation) (lab : LabelInfo) =>
        lab.description = l.entity.description ∧
        ∃ fr frs, l.frames = fr :: frs ∧ lab.confidence = fr.confidence)
        (AnnotationResult.mk [⟨⟨"cat"⟩, [⟨9⟩]⟩] [⟨⟨1⟩, ⟨2⟩⟩]
          [⟨[⟨"hello"⟩]⟩]).shot_label_annotations vd.labels ∧
      vd.scenes = (AnnotationResult.mk [⟨⟨"cat"⟩, [⟨9⟩]⟩] [⟨⟨1⟩, ⟨2⟩⟩]
          [⟨[⟨"hello"⟩]⟩]).shot_annotations.map (fun shot =>
        { start_time := shot.start_time_offset.total_seconds,
          end_time := shot.end_time_offset.total_seconds }) ∧
      vd.transcript = transcriptSpec (AnnotationResult.mk [⟨⟨"cat"⟩, [⟨9⟩]⟩]
          [⟨⟨1⟩, ⟨2⟩⟩] [⟨[⟨"hello"⟩]⟩]).speech_transcriptions :=
  parse_video_analysis_fields ⟨[⟨⟨"cat"⟩, [⟨9⟩]⟩], [⟨⟨1⟩, ⟨2⟩⟩], [⟨[⟨"hello"⟩]⟩]⟩ []
    (by intro l hl; simp at hl; subst hl; simp)

/-- C7: `search_videos` returns, for the first element of the
`find_neighbors` response and in the same order, one record
`{"video_id": id, "score": distance, "metadata": parameters}` per neighbor,
with no other transformation. -/
theorem search_videos_passthrough (sv : Services) (emb : List Int)
    (limit : JsonVal) (r0 : List Neighbor) (rest : List (List Neighbor))
    (h : sv.findNeighbors [emb] limit = .ok (r0 :: rest)) :
    vv_search_videos sv emb limit =
      (.ok (r0.map neighborJson), [.findNeighborsCall [emb] limit]) := by
  simp [vv_search_videos, h]

/-- Witness for C7 at a concrete response. -/
theorem search_videos_passthrough_witness :
    vv_search_videos svOk [1, 2, 3] (.num 2) =
      (.ok ([nbT].map neighborJson), [.findNeighborsCall [[1, 2, 3]] (.num 2)]) :=
  search_videos_passthrough svOk [1, 2, 3] (.num 2) [nbT] [] rfl

/-- C8: /health returns HTTP 200 with body `{"status": "healthy"}` for every
state of the external services, with an empty call trace. -/
theorem health_check_200 :
    ∀ sv : Services,
      health_check sv = ((200, .obj [("status", .str "healthy")]), []) :=
  fun _ => rfl

/-- C9: whenever an exception escapes the body of either POST handler, the
route answers HTTP 500 with `{"error": "Unexpected error: " ++ message}`;
the routes themselves are total functions, so no exception propagates. -/
theorem handler_catch_all_500 (sv : Services) (req1 req2 : HttpRequest)
    (e1 e2 : String) (tr1 tr2 : List Event)
    (h1 : process_video_body sv req1 = .error (e1, tr1))
    (h2 : search_videos_body sv req2 = .error (e2, tr2)) :
    process_video_route sv req1 =
      ((500, .obj [("error", .str ("Unexpected error: " ++ e1))]), tr1) ∧
    search_videos_route sv req2 =
      ((500, .obj [("error", .str ("Unexpected error: " ++ e2))]), tr2) := by
  constructor
  · simp [process_video_route, h1, create_error_response]
  · simp [search_videos_route, h2, create_error_response]

/-- Witness for C9: a JSON body that is the number 3 makes both handler
bodies raise a `TypeError` during the `in` test. -/
theorem handler_catch_all_500_witness :
    process_video_route svErr ⟨true, .num 3⟩ =
      ((500, .obj [("error",
        .str ("Unexpected error: " ++ "argument of type 'int' is not iterable"))]), []) ∧
    search_videos_route svErr ⟨true, .num 3⟩ =
      ((500, .obj [("error",
        .str ("Unexpected error: " ++ "argument of type 'int' is not iterable"))]), []) :=
  handler_catch_all_500 svErr ⟨true, .num 3⟩ ⟨true, .num 3⟩
    "argument of type 'int' is not iterable" "argument of type 'int' is not iterable"
    [] [] rfl rfl

/-- C10: `process_video` never raises: for every services oracle, URI and
video id (it is a total function of them), the returned record carries the
given `video_id` and a `status` that is `"success"` or `"error"`. -/
theorem vv_process_video_total_record (sv : Services) (gcs : String) (vid : JsonVal) :
    dictLookup (vv_process_video sv gcs vid).1 "video_id" = some vid ∧
    (dictLookup (vv_process_video sv gcs vid).1 "status" = some (.str "success") ∨
     dictLookup (vv_process_video sv gcs vid).1 "status" = some (.str "error")) := by
  rcases vv_process_video_shape sv gcs vid with ⟨e, h⟩ | ⟨md, h⟩ <;> rw [h]
  · exact ⟨rfl, .inr rfl⟩
  · exact ⟨rfl, .inl rfl⟩
